import Mathlib

/-!
Verification of the session/authentication core of the college-admissions
portal (`src/server/index.js` and the client `AuthProvider` idle tracker).

The server keeps three process-wide maps:
  * `activeSessions        : Map userId (Set tokenString)` — insertion-ordered
  * `sessionTokenVersions  : Map userId Nat`
  * `loginAttempts         : Map email {count, resetTime}`

JS `Map`s keyed by ids/emails are embedded as association lists that
preserve insertion order (`Map.set` on an existing key keeps the key's
position, which `aset` mirrors); a JS `Set` of token strings is embedded as
a duplicate-free, insertion-ordered `List Token`.

A signed JWT is embedded as a `Token` record carrying the claim set built
by `generateToken` plus the secret it was signed with; `jwtVerify` fails
with `badSignature` when the secret differs from the server's (this also
covers structurally malformed tokens, which the server handles identically)
and with `expired` when `now ≥ exp`.  Timestamps are milliseconds as `Nat`.
-/

namespace CollegeAdmissions

/-- Association-list lookup: first binding of the key wins
(mirrors JS `Map.get`). -/
def alookup {α β : Type} [DecidableEq α] : List (α × β) → α → Option β
  | [], _ => none
  | (k', v) :: rest, k => if k' = k then some v else alookup rest k

/-- Association-list update: replaces the first binding of the key in
place, or appends a new binding (mirrors JS `Map.set`, which keeps an
existing key's insertion position). -/
def aset {α β : Type} [DecidableEq α] : List (α × β) → α → β → List (α × β)
  | [], k, v => [(k, v)]
  | (k', v') :: rest, k, v =>
      if k' = k then (k, v) :: rest else (k', v') :: aset rest k v

/-- Server configuration defaults from `src/server/index.js` lines 20–21. -/
def JWT_SECRET : String := "your-super-secret-jwt-key-change-in-production"

def MAX_CONCURRENT_SESSIONS : Nat := 5

/-- `jwt.sign(payload, secret, { expiresIn: '24h' })` lifetime in ms. -/
def TOKEN_LIFETIME_MS : Nat := 24 * 60 * 60 * 1000

/-- A row of the `users` table (the fields the auth core reads). -/
structure User where
  id : Nat
  email : String
  password_hash : String
  name : String
  role : String
deriving DecidableEq, Repr

/-- The claim set embedded in a signed JWT (`generateToken`, lines 63–72),
plus the secret the token was signed with and the absolute expiry that
`expiresIn: '24h'` stamps into it. -/
structure Token where
  id : Nat
  email : String
  name : String
  role : String
  sessionVersion : Nat
  jti : Nat
  exp : Nat
  secret : String
deriving DecidableEq, Repr

/-- The login-throttle window entry (`loginAttempts` map values). -/
structure Attempt where
  count : Nat
  resetTime : Nat
deriving DecidableEq, Repr

/-- The three process-wide mutable maps of `src/server/index.js`
(lines 24–28). -/
structure AuthState where
  activeSessions : List (Nat × List Token)
  sessionTokenVersions : List (Nat × Nat)
  loginAttempts : List (String × Attempt)
deriving DecidableEq, Repr

def AuthState.empty : AuthState := ⟨[], [], []⟩

inductive VerifyError where
  | badSignature
  | expired
deriving DecidableEq, Repr

/-- `jwt.verify(token, secret)`: signature is checked before expiry
(a token signed with the wrong secret raises `JsonWebTokenError` even if
also expired); expiry fails once `now ≥ exp`. -/
def jwtVerify (secret : String) (t : Token) (now : Nat) :
    Except VerifyError Token :=
  if t.secret ≠ secret then .error .badSignature
  else if t.exp ≤ now then .error .expired
  else .ok t

/-- `generateToken(user)` (lines 63–72): embeds
`sessionTokenVersions.get(user.id) || 1` — note `0 || 1` is `1` in JS, so a
stored `0` also falls back to `1`. -/
def generateToken (versions : List (Nat × Nat)) (user : User)
    (now jti : Nat) : Token :=
  { id := user.id
    email := user.email
    name := user.name
    role := user.role
    sessionVersion :=
      match alookup versions user.id with
      | some v => if v = 0 then 1 else v
      | none => 1
    jti := jti
    exp := now + TOKEN_LIFETIME_MS
    secret := JWT_SECRET }

/-- Outcome of an auth middleware: either the decoded token is attached to
the request (`req.user`) and the handler runs, or the middleware responds
with a status and a message. -/
inductive AuthOutcome where
  | ok (user : Token)
  | err (status : Nat) (message : String)
deriving DecidableEq, Repr

/-- `authenticateToken` (lines 726–741), the middleware mounted on every
protected route: verifies the JWT only.  Any `jwt.verify` error — expired
included — yields 403; a missing bearer token yields 401.  It never reads
`sessionTokenVersions` or `activeSessions`. -/
def authenticateToken (bearer : Option Token) (now : Nat) : AuthOutcome :=
  match bearer with
  | none => .err 401 "Authentication required"
  | some t =>
    match jwtVerify JWT_SECRET t now with
    | .error _ => .err 403 "Invalid or expired token"
    | .ok u => .ok u

/-- `validateSession` (lines 75–109): verifies the JWT, then performs the
session-fixation check `if (currentVersion && decoded.sessionVersion !==
currentVersion)` — the version comparison is skipped when the principal has
no stored version (or a stored `0`, both falsy).  The `activeSessions`
membership probe on lines 95–100 only logs and never rejects, so it is not
part of the outcome.  This middleware is defined in the source but mounted
on no route. -/
def validateSession (versions : List (Nat × Nat)) (bearer : Option Token)
    (now : Nat) : AuthOutcome :=
  match bearer with
  | none => .err 401 "Authentication required"
  | some t =>
    match jwtVerify JWT_SECRET t now with
    | .error .expired => .err 401 "Session expired. Please log in again."
    | .error .badSignature => .err 403 "Invalid or expired token"
    | .ok decoded =>
      match alookup versions decoded.id with
      | some v =>
          if v ≠ 0 ∧ decoded.sessionVersion ≠ v then
            .err 403 "Session invalidated. Please log in again."
          else .ok decoded
      | none => .ok decoded

/-- The periodic cleanup (lines 112–123, every 60 s): for each principal
whose live set exceeds the maximum, deletes the first `size − max` tokens
(`Array.from(tokens).slice(0, size - max)`), i.e. drops from the oldest
end. -/
def sweepSessions (sessions : List (Nat × List Token)) :
    List (Nat × List Token) :=
  sessions.map fun p =>
    (p.1,
      if MAX_CONCURRENT_SESSIONS < p.2.length then
        p.2.drop (p.2.length - MAX_CONCURRENT_SESSIONS)
      else p.2)

/-- JS-`Set` add: a no-op when the element is present, otherwise appends
(insertion order preserved). -/
def setAdd (l : List Token) (t : Token) : List Token :=
  if t ∈ l then l else l ++ [t]

/-- The concurrent-session bookkeeping of the login handler
(lines 853–865): `userSessions.add(token)`, then if the set exceeds the
maximum, delete the single oldest entry
(`userSessions.values().next().value`). -/
def trackSession (l : List Token) (t : Token) : List Token :=
  let l' := setAdd l t
  if MAX_CONCURRENT_SESSIONS < l'.length then
    match l' with
    | [] => []
    | oldest :: _ => l'.erase oldest
  else l'

/-- Response of `POST /api/auth/login`.  `retryAfter` is the literal value
the handler puts in the 429 body (line 823). -/
structure LoginResponse where
  status : Nat
  message : String
  retryAfter : Option Nat
  token : Option Token
deriving DecidableEq, Repr

/-- `POST /api/auth/login` (lines 797–881).  `compare` stands for
`bcrypt.compare(password, user.password_hash)`; `now` is `Date.now()` and
`jti` the fresh `uuidv4()` of `generateToken`.  A missing body field is the
empty string (falsy, like `undefined`).  Faithful points:
  * the throttle window is read/initialised and reset **before** the
    missing-field check, and the (possibly reset) entry is written back on
    every path — `loginAttempts.set` plus in-place mutation of the shared
    object;
  * the 429 branch computes `Math.ceil((resetTime - now) / 1000 / 60)`,
    i.e. minutes rounded up, interpolates that number of minutes into the
    message, and is reachable only with `now ≤ resetTime`;
  * `queryOne('... WHERE email = ?')` is the first matching row;
  * on success the attempt count resets to 0 (window end kept) and the
    token is tracked with FIFO eviction. -/
def loginHandler (compare : String → String → Bool) (db : List User)
    (st : AuthState) (email password : String) (now jti : Nat) :
    LoginResponse × AuthState :=
  let windowMs : Nat := 15 * 60 * 1000
  let maxAttempts : Nat := 5
  let fresh : Attempt := { count := 0, resetTime := now + windowMs }
  let attempt0 := (alookup st.loginAttempts email).getD fresh
  let attempt := if attempt0.resetTime < now then fresh else attempt0
  let st := { st with loginAttempts := aset st.loginAttempts email attempt }
  if maxAttempts ≤ attempt.count then
    let remainingTime := (attempt.resetTime - now + 59999) / 60000
    ({ status := 429,
       message := "Too many login attempts. Please try again in " ++
         toString remainingTime ++ " minutes.",
       retryAfter := some remainingTime, token := none }, st)
  else if email = "" ∨ password = "" then
    ({ status := 400, message := "Email and password are required",
       retryAfter := none, token := none }, st)
  else
    match db.find? (fun u => u.email = email) with
    | none =>
      let la := aset st.loginAttempts email { attempt with count := attempt.count + 1 }
      let st := { st with loginAttempts := la }
      ({ status := 401, message := "Invalid email or password",
         retryAfter := none, token := none }, st)
    | some user =>
      if compare password user.password_hash then
        let la := aset st.loginAttempts email { attempt with count := 0 }
        let st := { st with loginAttempts := la }
        let token := generateToken st.sessionTokenVersions user now jti
        let sessions := (alookup st.activeSessions user.id).getD []
        let sess := aset st.activeSessions user.id (trackSession sessions token)
        let st := { st with activeSessions := sess }
        ({ status := 200, message := "Login successful",
           retryAfter := none, token := some token }, st)
      else
        let la := aset st.loginAttempts email { attempt with count := attempt.count + 1 }
        let st := { st with loginAttempts := la }
        ({ status := 401, message := "Invalid email or password",
           retryAfter := none, token := none }, st)

/-- JS `\s` character class (the whitespace set of `RegExp`). -/
def isJsSpace (c : Char) : Bool :=
  c.val = 9 ∨ c.val = 10 ∨ c.val = 11 ∨ c.val = 12 ∨ c.val = 13 ∨
  c.val = 32 ∨ c.val = 160 ∨ c.val = 0x1680 ∨
  (0x2000 ≤ c.val ∧ c.val ≤ 0x200a) ∨ c.val = 0x2028 ∨ c.val = 0x2029 ∨
  c.val = 0x202f ∨ c.val = 0x205f ∨ c.val = 0x3000 ∨ c.val = 0xfeff

/-- A character matched by `[^\s@]`. -/
def isLocalChar (c : Char) : Bool := !(isJsSpace c) && c != '@'

/-- `/^[^\s@]+@[^\s@]+\.[^\s@]+$/.test(email)` (line 753): the string is
`A ++ "@" ++ B` with `A` nonempty `[^\s@]+` (so exactly one `@` overall),
and `B` — all `[^\s@]` — contains a `.` that is neither its first nor its
last character (`[^\s@]` matches `.`, so backtracking only needs some
such split). -/
def emailRegexTest (s : String) : Bool :=
  match s.toList.splitOn '@' with
  | [a, b] =>
    !a.isEmpty && a.all isLocalChar && b.all isLocalChar &&
      b.tail.dropLast.contains '.'
  | _ => false

structure RegisterResponse where
  status : Nat
  message : String
  token : Option Token
deriving DecidableEq, Repr

/-- `POST /api/auth/register` (lines 744–795).  `hash` stands for
`bcrypt.hash`, `newId` for the fresh `uuidv4()` user id and `jti` for the
token id.  After the validations it inserts the user row, sets the
principal's session version to 1, issues a token, and **adds it to the
live set with no eviction and no size check**. -/
def registerHandler (hash : String → String) (db : List User)
    (st : AuthState) (email password name role : String)
    (newId now jti : Nat) : RegisterResponse × List User × AuthState :=
  if email = "" ∨ password = "" ∨ name = "" then
    ({ status := 400, message := "Email, password, and name are required",
       token := none }, db, st)
  else if ¬ emailRegexTest email then
    ({ status := 400, message := "Invalid email format", token := none },
      db, st)
  else if password.length < 8 then
    ({ status := 400, message := "Password must be at least 8 characters",
       token := none }, db, st)
  else if (db.find? (fun u => u.email = email)).isSome then
    ({ status := 400, message := "Email already registered", token := none },
      db, st)
  else
    let user : User :=
      { id := newId, email := email, password_hash := hash password
        name := name, role := role }
    let db := db ++ [user]
    let vs := aset st.sessionTokenVersions newId 1
    let st := { st with sessionTokenVersions := vs }
    let token := generateToken st.sessionTokenVersions user now jti
    let sessions := (alookup st.activeSessions newId).getD []
    let sess := aset st.activeSessions newId (setAdd sessions token)
    let st := { st with activeSessions := sess }
    ({ status := 201, message := "Registration successful",
       token := some token }, db, st)

/-- `POST /api/auth/logout` (lines 883–893), mounted behind
`authenticateToken`.  On middleware success the handler deletes the
presented token string from the caller's live set (when the map has the
key) and always answers 200.  It never touches `sessionTokenVersions` or
`loginAttempts`. -/
def logoutHandler (st : AuthState) (bearer : Option Token) (now : Nat) :
    (Nat × String) × AuthState :=
  match authenticateToken bearer now with
  | .err s m => ((s, m), st)
  | .ok user =>
    match bearer with
    | none => ((200, "Logged out successfully"), st)
    | some token =>
      match alookup st.activeSessions user.id with
      | none => ((200, "Logged out successfully"), st)
      | some l =>
        ((200, "Logged out successfully"),
          { st with activeSessions := aset st.activeSessions user.id (l.erase token) })

/-- `GET /api/auth/me` (lines 955–961), mounted behind
`authenticateToken`: looks the decoded id up in the `users` table; 404
when absent, 200 otherwise.  The session-version store is not an input —
the route's middleware never consults it. -/
def meHandler (db : List User) (bearer : Option Token) (now : Nat) : Nat :=
  match authenticateToken bearer now with
  | .err s _ => s
  | .ok u =>
    match db.find? (fun x => x.id = u.id) with
    | none => 404
    | some _ => 200

/-- Status of `GET /api/users` (lines 993–1000): `authenticateToken`, then
`req.user.role !== 'admin'` → 403, else 200 (the `SELECT` for the body
cannot change the status).  The decision reads only the token's embedded
role — `db` is an input solely to witness that it is ignored. -/
def usersListStatus (db : List User) (bearer : Option Token) (now : Nat) :
    Nat :=
  match authenticateToken bearer now with
  | .err s _ => s
  | .ok u => if u.role ≠ "admin" then 403 else 200

/-- `PUT /api/users/:id/role` (lines 1002–1014): admin-gated by the
token's embedded role; validates the new role; updates only the `users`
table (`UPDATE users SET role = ? WHERE id = ?`).  The session maps are
untouched. -/
def updateRoleHandler (db : List User) (bearer : Option Token)
    (targetId : Nat) (role : String) (now : Nat) : Nat × List User :=
  match authenticateToken bearer now with
  | .err s _ => (s, db)
  | .ok u =>
    if u.role ≠ "admin" then (403, db)
    else if ¬ (role = "admin" ∨ role = "officer" ∨ role = "applicant") then
      (400, db)
    else
      (200, db.map fun x => if x.id = targetId then { x with role := role } else x)

/-- Modelled from the spec: §4.3 `bumpVersion(principalId)` — "atomically
increments the stored version".  No code under `src/` performs the bump
(the spec itself notes it is "not implemented as a user-facing action");
only the version store, its default of 1, and the dead `validateSession`
check exist in `src/server/index.js`. -/
def bumpVersion (versions : List (Nat × Nat)) (uid : Nat) :
    List (Nat × Nat) :=
  aset versions uid ((alookup versions uid).getD 1 + 1)

/-- Modelled from the spec (for refinement comparison only): §3's validity
invariant — valid iff the signature verifies, `now < exp`, and the embedded
session version equals the principal's current version counter, the
counter "defaulting to 1 if principal has never been recorded" (§4.3). -/
def specTokenValid (versions : List (Nat × Nat)) (t : Token) (now : Nat) :
    Bool :=
  t.secret = JWT_SECRET ∧ now < t.exp ∧
    t.sessionVersion = (alookup versions t.id).getD 1

/-! ## Client idle tracker (`AuthProvider` in the client source)

The tracker is single-threaded and event-driven: `resetTimeout` records
the activity instant and (re)schedules two deferred callbacks, replacing —
i.e. cancelling — any pending ones.  Timers hold their absolute fire time;
a fired or cancelled timer is `none`. -/

def SESSION_TIMEOUT : Nat := 30 * 60 * 1000

def WARNING_BEFORE_TIMEOUT : Nat := 2 * 60 * 1000

structure IdleState where
  lastActivity : Nat
  warningTimer : Option Nat
  logoutTimer : Option Nat
  showWarning : Bool
  loggedOut : Bool
deriving DecidableEq, Repr

/-- `resetTimeout` (client `AuthProvider`): sets `lastActivityRef` to now,
clears both pending timeouts and the countdown, hides the warning, and
schedules the warning callback at `now + (SESSION_TIMEOUT −
WARNING_BEFORE_TIMEOUT)` and the logout callback at
`now + SESSION_TIMEOUT`. -/
def resetTimeout (now : Nat) (s : IdleState) : IdleState :=
  { lastActivity := now
    warningTimer := some (now + (SESSION_TIMEOUT - WARNING_BEFORE_TIMEOUT))
    logoutTimer := some (now + SESSION_TIMEOUT)
    showWarning := false
    loggedOut := s.loggedOut }

/-- The warning callback body: if activity happened more recently than
`SESSION_TIMEOUT − WARNING_BEFORE_TIMEOUT` ago (a race from coalesced
events), it calls `resetTimeout` again; otherwise it shows the warning
(and starts the countdown, whose display state is not modelled). -/
def fireWarning (now : Nat) (s : IdleState) : IdleState :=
  if now - s.lastActivity < SESSION_TIMEOUT - WARNING_BEFORE_TIMEOUT then
    resetTimeout now s
  else
    { s with showWarning := true, warningTimer := none }

/-- The logout callback body: `logout()` then hide the warning. -/
def fireLogout (s : IdleState) : IdleState :=
  { s with loggedOut := true, showWarning := false, logoutTimer := none }

/-- `handleActivity` for the qualifying events (`mousedown`, `keydown`,
`touchstart`, `scroll`): calls `resetTimeout` only while a user is
logged in. -/
def handleActivity (authed : Bool) (now : Nat) (s : IdleState) :
    IdleState :=
  if authed then resetTimeout now s else s

/-- Modelled from the spec (for refinement comparison only): §6 names the
throttled-login response field `retryAfterSeconds` and the scenario reads
it as "the remaining time until the window resets, in seconds". -/
def specRetryAfterSeconds (resetTime now : Nat) : Nat :=
  (resetTime - now) / 1000

/-- Run a sequence of login requests `(email, password, now, jti)` against
the shared state, keeping only the state (the `users` table is read-only
for login). -/
def runLogins (compare : String → String → Bool) (db : List User)
    (st : AuthState) (reqs : List (String × String × Nat × Nat)) :
    AuthState :=
  reqs.foldl
    (fun s r => (loginHandler compare db s r.1 r.2.1 r.2.2.1 r.2.2.2).2) st

/-! ## Concrete fixtures used by scenario theorems and witnesses -/

/-- Stand-in for `bcrypt.compare`: the model treats the stored credential
as an opaque string the comparison matches exactly. -/
def cmpEq : String → String → Bool := fun p h => p = h

def U7 : User :=
  { id := 7, email := "p@x.com", password_hash := "pw123456", name := "P"
    role := "applicant" }

def db7 : List User := [U7]

/-- A signed, unexpired token carrying session version 2 for a principal
with no entry in the version store. -/
def tokV2 : Token :=
  { id := 2, email := "q@x.com", name := "Q", role := "applicant"
    sessionVersion := 2, jti := 1, exp := 10, secret := JWT_SECRET }

/-! ## Helper lemmas -/

theorem alookup_aset_self {α β : Type} [DecidableEq α]
    (l : List (α × β)) (k : α) (v : β) :
    alookup (aset l k v) k = some v := by
  induction l with
  | nil => simp [aset, alookup]
  | cons p rest ih =>
    obtain ⟨a, b⟩ := p
    by_cases h : a = k
    · simp [aset, alookup, h]
    · simp [aset, alookup, h, ih]

theorem alookup_aset_ne {α β : Type} [DecidableEq α]
    (l : List (α × β)) (k k' : α) (v : β) (h : k' ≠ k) :
    alookup (aset l k v) k' = alookup l k' := by
  induction l with
  | nil => simp [aset, alookup, Ne.symm h]
  | cons p rest ih =>
    obtain ⟨a, b⟩ := p
    by_cases ha : a = k
    · subst ha
      simp [aset, alookup, Ne.symm h]
    · simp [aset, alookup, ha, ih]

theorem jwtVerify_ok_iff (secret : String) (t : Token) (now : Nat) :
    jwtVerify secret t now = .ok t ↔ (t.secret = secret ∧ now < t.exp) := by
  unfold jwtVerify
  split_ifs with h1 h2
  · simp [h1]
  · simp [Nat.not_lt.mpr h2, fun (h : ¬ t.secret ≠ secret) => not_not.mp h1]
  · simp [not_not.mp h1, Nat.not_le.mp h2]

/-! ## C2 — the validity invariant of `validateSession` -/

/-- Claim C2, counterexample: the claim says a token is valid only if its
embedded session-version equals the principal's current version counter,
"defaulting to 1 when P has never been recorded".  `tokV2` is signed and
unexpired but embeds version 2 while its principal has no entry in the
version store: `validateSession` accepts it (the code skips the comparison
whenever no version is stored), yet under the spec's reading it is invalid
since 2 ≠ 1. -/
theorem claim2_counterexample :
    validateSession [] (some tokV2) 5 = .ok tokV2 ∧
      specTokenValid [] tokV2 5 = false := by
  constructor <;> rfl

/-- Claim C2 (amended): `validateSession` accepts a presented token iff its
signature verifies, the current time is before its expiry, and — only when
a nonzero version is recorded for the principal — the embedded
session-version equals the recorded one; when the principal has never been
recorded (or a zero is recorded, both falsy) no version check is performed.
The spec's default-to-1 happens at issuance instead: `generateToken`
embeds version 1 for an unrecorded principal, so the two readings agree on
every token the server itself issued to a still-unrecorded principal. -/
theorem claim2_validateSession_valid_iff
    (versions : List (Nat × Nat)) (t : Token) (now : Nat) :
    (validateSession versions (some t) now = .ok t ↔
      t.secret = JWT_SECRET ∧ now < t.exp ∧
        (∀ v, alookup versions t.id = some v →
          v = 0 ∨ t.sessionVersion = v)) ∧
    (∀ (u : User) (n j : Nat), alookup versions u.id = none →
      (generateToken versions u n j).sessionVersion = 1) := by
  constructor
  · by_cases hs : t.secret = JWT_SECRET
    · by_cases he : now < t.exp
      · have hv : jwtVerify JWT_SECRET t now = .ok t :=
          (jwtVerify_ok_iff JWT_SECRET t now).mpr ⟨hs, he⟩
        cases hl : alookup versions t.id with
        | none =>
          simp only [validateSession, hv, hl]
          constructor
          · intro _
            exact ⟨hs, he, fun v hv' => nomatch hv'⟩
          · intro _; trivial
        | some v =>
          by_cases hc : v ≠ 0 ∧ t.sessionVersion ≠ v
          · simp only [validateSession, hv, hl, if_pos hc]
            constructor
            · intro h; cases h
            · rintro ⟨-, -, hall⟩
              rcases hall v rfl with h0 | hsv
              · exact absurd h0 hc.1
              · exact absurd hsv hc.2
          · simp only [validateSession, hv, hl, if_neg hc]
            constructor
            · intro _
              refine ⟨hs, he, ?_⟩
              intro v' hv'
              cases hv'
              rcases Decidable.not_and_iff_or_not.mp hc with h0 | hsv
              · exact Or.inl (not_not.mp h0)
              · exact Or.inr (not_not.mp hsv)
            · intro _; trivial
      · have hv : jwtVerify JWT_SECRET t now = .error .expired := by
          unfold jwtVerify
          rw [if_neg (by simpa using hs), if_pos (Nat.not_lt.mp he)]
        simp only [validateSession, hv]
        constructor
        · intro h; cases h
        · rintro ⟨-, he', -⟩; exact absurd he' he
    · have hv : jwtVerify JWT_SECRET t now = .error .badSignature := by
        unfold jwtVerify
        rw [if_pos (by simpa using hs)]
      simp only [validateSession, hv]
      constructor
      · intro h; cases h
      · rintro ⟨hs', -, -⟩; exact absurd hs' hs
  · intro u n j hnone
    simp [generateToken, hnone]

/-- A signed, unexpired token matching a recorded version 3. -/
def tokW : Token :=
  { id := 7, email := "p@x.com", name := "P", role := "applicant"
    sessionVersion := 3, jti := 4, exp := 10, secret := JWT_SECRET }

/-- Witness for claim C2: the amended characterisation applied at concrete
inputs — `tokW` is accepted against a store recording version 3, and a
token generated for the unrecorded principal `U7` embeds version 1. -/
theorem claim2_witness :
    validateSession [(7, 3)] (some tokW) 5 = .ok tokW ∧
      (generateToken [] U7 0 1).sessionVersion = 1 := by
  constructor
  · refine (claim2_validateSession_valid_iff [(7, 3)] tokW 5).1.mpr
      ⟨rfl, by decide, ?_⟩
    intro v hv
    have h3 : (3 : Nat) = v := by simpa [alookup, tokW] using hv
    exact Or.inr h3
  · exact (claim2_validateSession_valid_iff [] tokW 5).2 U7 0 1 rfl

/-! ## C1 — version bumps versus `/api/auth/me` -/

/-- A token issued to `U7` while the version store records version 1. -/
def oldTok7 : Token := generateToken [(7, 1)] U7 0 1

/-- The version store after the administrative bump of `U7`'s version. -/
def bumped7 : List (Nat × Nat) := bumpVersion [(7, 1)] 7

/-- A token freshly issued to `U7` after the bump (embeds version 2). -/
def freshTok7 : Token := generateToken bumped7 U7 1000 2

/-- Claim C1 (code bug): after `U7`'s session version is bumped from 1 to
2, a request to `GET /api/auth/me` bearing the pre-bump token still
succeeds with 200 — the route is mounted behind `authenticateToken`, which
never reads the version store, so no version-mismatch failure can occur on
any request.  The version check lives only in `validateSession`, which is
mounted on no route: under it the old token would fail with the
version-mismatch error and a freshly issued token would succeed, exactly
as the claim demands. -/
theorem claim1_me_ignores_version_bump :
    meHandler db7 (some oldTok7) 1000 = 200 ∧
    authenticateToken (some oldTok7) 1000 = .ok oldTok7 ∧
    validateSession bumped7 (some oldTok7) 1000 =
      .err 403 "Session invalidated. Please log in again." ∧
    validateSession bumped7 (some freshTok7) 1000 = .ok freshTok7 :=
  ⟨rfl, rfl, rfl, rfl⟩

/-! ## C3 — the HTTP status of each failure kind -/

/-- Shared helper: a login attempt while the throttle window is active
with the attempt count at the maximum answers 429, with the remaining
time reported in minutes rounded up, and leaves the window entry
unchanged. -/
theorem loginHandler_throttled (compare : String → String → Bool)
    (db : List User) (st : AuthState) (email password : String)
    (now jti c r : Nat)
    (hl : alookup st.loginAttempts email = some ⟨c, r⟩)
    (hc : 5 ≤ c) (hr : now ≤ r) :
    (loginHandler compare db st email password now jti).1 =
      { status := 429
        message := "Too many login attempts. Please try again in " ++
          toString ((r - now + 59999) / 60000) ++ " minutes."
        retryAfter := some ((r - now + 59999) / 60000), token := none } ∧
    (loginHandler compare db st email password now jti).2 =
      { st with loginAttempts := aset st.loginAttempts email ⟨c, r⟩ } := by
  unfold loginHandler
  simp [hl, Nat.not_lt.mpr hr, hc]

/-- A token signed with a secret other than the server's. -/
def tokBad : Token :=
  { id := 1, email := "e@x.com", name := "E", role := "applicant"
    sessionVersion := 1, jti := 9, exp := 10, secret := "forged" }

/-- Claim C3, counterexample: the claim maps `InvalidToken` to status 401,
but a signed-with-the-wrong-secret token presented to either middleware is
answered with 403. -/
theorem claim3_counterexample :
    authenticateToken (some tokBad) 0 = .err 403 "Invalid or expired token" ∧
    validateSession [] (some tokBad) 0 =
      .err 403 "Invalid or expired token" ∧
    (403 : Nat) ≠ 401 :=
  ⟨rfl, rfl, by decide⟩

/-- Claim C3 (amended): each failure kind surfaces with a user-safe
message that carries no internal state — a fixed literal for the
middleware failures, and for the throttle a message interpolating only
the remaining minutes — and the following statuses: `Unauthenticated` 401
(both middlewares), `InvalidToken` 403 (both), `SessionExpired` 401 under
`validateSession` but 403 under `authenticateToken` (the middleware the
routes actually mount), `SessionInvalidated` 403 (only in
`validateSession`, which no route mounts), `RateLimited` 429, and role
failures 403. -/
theorem claim3_error_status_map (t : Token) (now : Nat)
    (versions : List (Nat × Nat)) :
    (authenticateToken none now = .err 401 "Authentication required") ∧
    (validateSession versions none now =
      .err 401 "Authentication required") ∧
    (t.secret ≠ JWT_SECRET →
      authenticateToken (some t) now = .err 403 "Invalid or expired token" ∧
      validateSession versions (some t) now =
        .err 403 "Invalid or expired token") ∧
    (t.secret = JWT_SECRET → t.exp ≤ now →
      authenticateToken (some t) now = .err 403 "Invalid or expired token" ∧
      validateSession versions (some t) now =
        .err 401 "Session expired. Please log in again.") ∧
    (∀ v, t.secret = JWT_SECRET → now < t.exp →
      alookup versions t.id = some v → v ≠ 0 → t.sessionVersion ≠ v →
      validateSession versions (some t) now =
        .err 403 "Session invalidated. Please log in again.") ∧
    (∀ (compare : String → String → Bool) (db : List User) (st : AuthState)
      (email password : String) (jti c r : Nat),
      alookup st.loginAttempts email = some ⟨c, r⟩ → 5 ≤ c → now ≤ r →
      (loginHandler compare db st email password now jti).1.status = 429 ∧
      (loginHandler compare db st email password now jti).1.message =
        "Too many login attempts. Please try again in " ++
          toString ((r - now + 59999) / 60000) ++ " minutes.") ∧
    (t.secret = JWT_SECRET → now < t.exp → t.role ≠ "admin" →
      ∀ db, usersListStatus db (some t) now = 403) := by
  refine ⟨rfl, rfl, ?_, ?_, ?_, ?_, ?_⟩
  · intro hs
    constructor <;> simp [authenticateToken, validateSession, jwtVerify, hs]
  · intro hs he
    constructor <;> simp [authenticateToken, validateSession, jwtVerify, hs, he]
  · intro v hs he hl hv0 hsv
    simp [validateSession, jwtVerify, hs, Nat.not_le.mpr he, hl, hv0, hsv]
  · intro compare db st email password jti c r hl hc hr
    constructor <;>
      rw [(loginHandler_throttled compare db st email password now jti c r
        hl hc hr).1]
  · intro hs he hrole db
    simp [usersListStatus, authenticateToken, jwtVerify, hs,
      Nat.not_le.mpr he, hrole]

/-- A shared state whose throttle window for `p@x.com` is saturated. -/
def st3 : AuthState :=
  { AuthState.empty with loginAttempts := [("p@x.com", ⟨5, 900000⟩)] }

/-- Witness for claim C3: every hypothesised branch of the status map,
discharged at concrete inputs (`tokBad` for the signature failure; an
expired and a version-mismatched variant of `U7`'s token; a throttled
state; a non-admin caller of `GET /api/users`). -/
theorem claim3_witness :
    authenticateToken (some tokBad) 0 = .err 403 "Invalid or expired token" ∧
    authenticateToken (some oldTok7) 86400000 =
      .err 403 "Invalid or expired token" ∧
    validateSession [(7, 5)] (some oldTok7) 1000 =
      .err 403 "Session invalidated. Please log in again." ∧
    (loginHandler cmpEq db7 st3 "p@x.com" "pw123456" 5 6).1.status
        = 429 ∧
    (loginHandler cmpEq db7 st3 "p@x.com" "pw123456" 5 6).1.message =
      "Too many login attempts. Please try again in 15 minutes." ∧
    usersListStatus db7 (some oldTok7) 1000 = 403 := by
  refine ⟨?_, ?_, ?_, ?_, ?_, ?_⟩
  · exact ((claim3_error_status_map tokBad 0 []).2.2.1 (by decide)).1
  · exact ((claim3_error_status_map oldTok7 86400000 []).2.2.2.1
      rfl (by decide)).1
  · exact (claim3_error_status_map oldTok7 1000 [(7, 5)]).2.2.2.2.1
      5 rfl (by decide) rfl (by decide) (by decide)
  · exact ((claim3_error_status_map oldTok7 5 []).2.2.2.2.2.1
      cmpEq db7 st3 "p@x.com" "pw123456" 6 5 900000 rfl (by decide)
      (by decide)).1
  · have h := ((claim3_error_status_map oldTok7 5 []).2.2.2.2.2.1
      cmpEq db7 st3 "p@x.com" "pw123456" 6 5 900000 rfl (by decide)
      (by decide)).2
    simpa using h
  · exact (claim3_error_status_map oldTok7 1000 []).2.2.2.2.2.2
      rfl (by decide) (by decide) db7

/-! ## C4 — FIFO eviction at the concurrent-session limit -/

/-- Six login requests for `U7` with the correct password, at instants
0–5 ms with token ids 1–6. -/
def reqs6 : List (String × String × Nat × Nat) :=
  [("p@x.com", "pw123456", 0, 1), ("p@x.com", "pw123456", 1, 2),
   ("p@x.com", "pw123456", 2, 3), ("p@x.com", "pw123456", 3, 4),
   ("p@x.com", "pw123456", 4, 5), ("p@x.com", "pw123456", 5, 6)]

/-- Claim C4 (confirmed): a registration onto a full live set evicts
exactly the single oldest entry, preserving insertion order; and after
`U7` logs in six times with the maximum at 5, the registry holds exactly
the five tokens issued second through sixth, in issue order, and the first
token is no longer live. -/
theorem claim4_fifo_eviction :
    (∀ (l : List Token) (t : Token), l.length = MAX_CONCURRENT_SESSIONS →
      t ∉ l → trackSession l t = l.drop 1 ++ [t]) ∧
    alookup (runLogins cmpEq db7 AuthState.empty reqs6).activeSessions 7 =
      some [generateToken [] U7 1 2, generateToken [] U7 2 3,
            generateToken [] U7 3 4, generateToken [] U7 4 5,
            generateToken [] U7 5 6] ∧
    generateToken [] U7 0 1 ∉
      (alookup (runLogins cmpEq db7 AuthState.empty reqs6).activeSessions
        7).getD [] := by
  refine ⟨?_, by decide, by decide⟩
  intro l t hlen hnot
  cases l with
  | nil => simp [MAX_CONCURRENT_SESSIONS] at hlen
  | cons a rest =>
    simp only [trackSession, setAdd, if_neg hnot]
    rw [if_pos (by simp [List.length_append] at hlen ⊢; omega)]
    simp

/-- Witness for claim C4: the eviction law at a concrete full set — the
five tokens of issue instants 1–5 plus the sixth yield tokens 2–6. -/
theorem claim4_witness :
    trackSession
      [generateToken [] U7 0 1, generateToken [] U7 1 2,
       generateToken [] U7 2 3, generateToken [] U7 3 4,
       generateToken [] U7 4 5] (generateToken [] U7 5 6) =
      [generateToken [] U7 1 2, generateToken [] U7 2 3,
       generateToken [] U7 3 4, generateToken [] U7 4 5,
       generateToken [] U7 5 6] :=
  claim4_fifo_eviction.1 _ _ (by decide) (by decide)

/-! ## C5 — the login throttle -/

/-- Shared helper: once the throttle window has elapsed, a login with the
correct credentials succeeds and issues a token. -/
theorem loginHandler_succeeds (compare : String → String → Bool)
    (db : List User) (st : AuthState) (email password : String)
    (now jti c r : Nat) (user : User)
    (hl : alookup st.loginAttempts email = some ⟨c, r⟩) (hr : r < now)
    (hemail : email ≠ "") (hpw : password ≠ "")
    (hfind : db.find? (fun u => u.email = email) = some user)
    (hcmp : compare password user.password_hash = true) :
    (loginHandler compare db st email password now jti).1.status = 200 ∧
    (loginHandler compare db st email password now jti).1.token =
      some (generateToken st.sessionTokenVersions user now jti) := by
  unfold loginHandler
  simp [hl, hr, hemail, hpw, hfind, hcmp]

/-- Five login requests for `U7` with a wrong password, at instants
0–4 ms. -/
def fails5 : List (String × String × Nat × Nat) :=
  [("p@x.com", "bad", 0, 1), ("p@x.com", "bad", 1, 2),
   ("p@x.com", "bad", 2, 3), ("p@x.com", "bad", 3, 4),
   ("p@x.com", "bad", 4, 5)]

/-- The shared state after the five failures: the window entry for
`p@x.com` holds count 5 with reset instant 900000 (the 15-minute mark). -/
def st5fails : AuthState := runLogins cmpEq db7 AuthState.empty fails5

/-- Claim C5, counterexample: after five failures the sixth attempt (at
5 ms) is refused with `retryAfter = 15` — minutes rounded up — while the
remaining time until the window resets is 899999 ms, i.e. 899 (rounding
down) or 900 (rounding up) seconds; the field is not the remaining time
in seconds.  Moreover an attempt exactly at the reset instant is still
refused but carries `retryAfter = 0`, refuting `retryAfterSeconds > 0`. -/
theorem claim5_counterexample :
    (loginHandler cmpEq db7 st5fails "p@x.com" "pw123456" 5 6).1.retryAfter
        = some 15 ∧
    specRetryAfterSeconds 900000 5 = 899 ∧
    (15 : Nat) ≠ 899 ∧ (15 : Nat) ≠ 900 ∧
    (loginHandler cmpEq db7 st5fails "p@x.com" "pw123456" 900000 6
      ).1.status = 429 ∧
    (loginHandler cmpEq db7 st5fails "p@x.com" "pw123456" 900000 6
      ).1.retryAfter = some 0 := by
  refine ⟨by decide, by decide, by decide, by decide, by decide, by decide⟩

/-- Claim C5 (amended): with the window for the email at count ≥ 5 and the
current time at or before the reset instant, an attempt is refused with
429 and `retryAfter` = the remaining time in minutes rounded up, which is
positive whenever the attempt is strictly before the reset instant (it is
0 exactly at the boundary); once the window has elapsed, an attempt with
the correct credentials succeeds with a fresh token.  Five failed attempts
from a clean state put the window at count 5. -/
theorem claim5_throttle (compare : String → String → Bool) (db : List User)
    (st : AuthState) (email password : String) (now jti c r : Nat)
    (user : User) :
    (alookup st.loginAttempts email = some ⟨c, r⟩ → 5 ≤ c → now ≤ r →
      (loginHandler compare db st email password now jti).1.status = 429 ∧
      (loginHandler compare db st email password now jti).1.retryAfter =
        some ((r - now + 59999) / 60000) ∧
      (now < r → 0 < (r - now + 59999) / 60000)) ∧
    (alookup st.loginAttempts email = some ⟨c, r⟩ → r < now →
      email ≠ "" → password ≠ "" →
      db.find? (fun u => u.email = email) = some user →
      compare password user.password_hash = true →
      (loginHandler compare db st email password now jti).1.status = 200 ∧
      (loginHandler compare db st email password now jti).1.token =
        some (generateToken st.sessionTokenVersions user now jti)) ∧
    alookup st5fails.loginAttempts "p@x.com" = some ⟨5, 900000⟩ := by
  refine ⟨?_, ?_, by decide⟩
  · intro hl hc hr
    obtain ⟨h1, -⟩ := loginHandler_throttled compare db st email password
      now jti c r hl hc hr
    refine ⟨by rw [h1], by rw [h1], ?_⟩
    intro hlt
    exact Nat.div_pos (by omega) (by norm_num)
  · intro hl hr hemail hpw hfind hcmp
    exact loginHandler_succeeds compare db st email password now jti c r
      user hl hr hemail hpw hfind hcmp

/-- Witness for claim C5: the amended statement at the concrete run — the
sixth attempt at 5 ms is refused with a positive `retryAfter` of 15
minutes, and the first attempt after the window (at 900001 ms) with the
correct password succeeds with a fresh token. -/
theorem claim5_witness :
    (loginHandler cmpEq db7 st5fails "p@x.com" "pw123456" 5 6).1.status
        = 429 ∧
    (loginHandler cmpEq db7 st5fails "p@x.com" "pw123456" 5 6).1.retryAfter
        = some 15 ∧
    (0 : Nat) < 15 ∧
    (loginHandler cmpEq db7 st5fails "p@x.com" "pw123456" 900001 6
      ).1.status = 200 ∧
    (loginHandler cmpEq db7 st5fails "p@x.com" "pw123456" 900001 6
      ).1.token =
      some (generateToken st5fails.sessionTokenVersions U7 900001 6) := by
  obtain ⟨hthr, hsucc, -⟩ := claim5_throttle cmpEq db7 st5fails "p@x.com"
    "pw123456" 5 6 5 900000 U7
  obtain ⟨h1, h2, h3⟩ := hthr (by decide) (by decide) (by decide)
  obtain ⟨hthr', hsucc', -⟩ := claim5_throttle cmpEq db7 st5fails "p@x.com"
    "pw123456" 900001 6 5 900000 U7
  obtain ⟨h4, h5⟩ := hsucc' (by decide) (by decide) (by decide) (by decide)
    (by decide) (by decide)
  exact ⟨h1, by simpa using h2, h3 (by decide), h4, h5⟩

/-! ## C6 — logout revokes only the presented token -/

/-- Claim C6 (confirmed): a logout presenting a valid token answers 200,
leaves the version store and the throttle map untouched (so no version
bump), leaves every other principal's registry entry unchanged, keeps
every other token's membership in the caller's entry, removes exactly the
presented token — the caller's entry becomes its previous value with the
token erased, so the token is no longer a member (registry entries are JS
sets, hence duplicate-free) — and leaves the outcome of the
version-checking validation of any token unchanged. -/
theorem claim6_logout_frame (st : AuthState) (t : Token) (now : Nat)
    (hs : t.secret = JWT_SECRET) (he : now < t.exp) :
    ((logoutHandler st (some t) now).1).1 = 200 ∧
    (logoutHandler st (some t) now).2.sessionTokenVersions =
      st.sessionTokenVersions ∧
    (logoutHandler st (some t) now).2.loginAttempts = st.loginAttempts ∧
    (∀ uid, uid ≠ t.id →
      alookup (logoutHandler st (some t) now).2.activeSessions uid =
        alookup st.activeSessions uid) ∧
    (∀ t' : Token, t' ≠ t →
      (t' ∈ (alookup (logoutHandler st (some t) now).2.activeSessions
          t.id).getD [] ↔
       t' ∈ (alookup st.activeSessions t.id).getD [])) ∧
    alookup (logoutHandler st (some t) now).2.activeSessions t.id =
      (alookup st.activeSessions t.id).map (fun l => l.erase t) ∧
    (((alookup st.activeSessions t.id).getD []).Nodup →
      t ∉ (alookup (logoutHandler st (some t) now).2.activeSessions
        t.id).getD []) ∧
    (∀ (b : Option Token) (n' : Nat),
      validateSession (logoutHandler st (some t) now).2.sessionTokenVersions
          b n' =
        validateSession st.sessionTokenVersions b n') := by
  have hauth : authenticateToken (some t) now = .ok t := by
    simp [authenticateToken, jwtVerify, hs, Nat.not_le.mpr he]
  cases hcase : alookup st.activeSessions t.id with
  | none =>
    simp [logoutHandler, hauth, hcase]
  | some l =>
    simp only [logoutHandler, hauth, hcase]
    refine ⟨?_, ?_, ?_, ?_, ?_, ?_, ?_, ?_⟩
    · trivial
    · trivial
    · trivial
    · intro uid hne
      exact alookup_aset_ne st.activeSessions t.id uid (l.erase t) hne
    · intro t' hne
      rw [alookup_aset_self st.activeSessions t.id (l.erase t)]
      simpa using List.mem_erase_of_ne hne
    · rw [alookup_aset_self st.activeSessions t.id (l.erase t)]
      rfl
    · intro hnd
      rw [alookup_aset_self st.activeSessions t.id (l.erase t)]
      simpa using List.Nodup.not_mem_erase (by simpa using hnd)
    · exact fun _ _ => trivial

/-- A concrete state: `U7` has two live tokens, a recorded version, and a
throttle entry. -/
def st6 : AuthState :=
  { activeSessions := [(7, [oldTok7, freshTok7])]
    sessionTokenVersions := [(7, 1)]
    loginAttempts := [("p@x.com", ⟨2, 900000⟩)] }

/-- Witness for claim C6: logging `oldTok7` out of `st6` answers 200,
keeps the version store, leaves principal 9's (absent) entry untouched,
keeps the sibling token `freshTok7` live, and removes `oldTok7` itself —
the entry becomes exactly `[freshTok7]`. -/
theorem claim6_witness :
    ((logoutHandler st6 (some oldTok7) 1000).1).1 = 200 ∧
    (logoutHandler st6 (some oldTok7) 1000).2.sessionTokenVersions =
      st6.sessionTokenVersions ∧
    alookup (logoutHandler st6 (some oldTok7) 1000).2.activeSessions 9 =
      alookup st6.activeSessions 9 ∧
    (freshTok7 ∈ (alookup (logoutHandler st6 (some oldTok7) 1000
        ).2.activeSessions 7).getD [] ↔
      freshTok7 ∈ (alookup st6.activeSessions 7).getD []) ∧
    alookup (logoutHandler st6 (some oldTok7) 1000).2.activeSessions 7 =
      some [freshTok7] ∧
    oldTok7 ∉ (alookup (logoutHandler st6 (some oldTok7) 1000
      ).2.activeSessions 7).getD [] := by
  obtain ⟨h1, h2, -, h4, h5, hmap, hrm, -⟩ :=
    claim6_logout_frame st6 oldTok7 1000 rfl (by decide)
  exact ⟨h1, h2, h4 9 (by decide), h5 freshTok7 (by decide),
    hmap.trans (by decide), hrm (by decide)⟩

/-! ## C7 — logout's response statuses -/

/-- Claim C7, counterexample: the claim says every presented token gets
200, but a token that fails JWT verification is rejected by the
`authenticateToken` middleware with 403 and nothing is revoked. -/
theorem claim7_counterexample :
    (logoutHandler st6 (some tokBad) 0).1 =
      (403, "Invalid or expired token") ∧
    (logoutHandler st6 (some tokBad) 0).2 = st6 ∧
    (403 : Nat) ≠ 200 :=
  ⟨rfl, rfl, by decide⟩

/-- Claim C7 (amended): logout answers 200 — and revokes the presented
token — only for a request whose bearer token passes JWT verification;
a request with no token is answered 401 and one with a malformed or
expired token 403, in both cases without touching the state. -/
theorem claim7_logout_statuses (st : AuthState) (t : Token) (now : Nat) :
    ((logoutHandler st none now).1 = (401, "Authentication required") ∧
      (logoutHandler st none now).2 = st) ∧
    (t.secret ≠ JWT_SECRET ∨ t.exp ≤ now →
      (logoutHandler st (some t) now).1 =
        (403, "Invalid or expired token") ∧
      (logoutHandler st (some t) now).2 = st) ∧
    (t.secret = JWT_SECRET → now < t.exp →
      (logoutHandler st (some t) now).1 = (200, "Logged out successfully") ∧
      (logoutHandler st (some t) now).2.activeSessions =
        (match alookup st.activeSessions t.id with
         | none => st.activeSessions
         | some l => aset st.activeSessions t.id (l.erase t))) := by
  refine ⟨⟨rfl, rfl⟩, ?_, ?_⟩
  · intro herr
    have hfail : authenticateToken (some t) now =
        .err 403 "Invalid or expired token" := by
      rcases herr with hs | he
      · simp [authenticateToken, jwtVerify, hs]
      · by_cases hsec : t.secret = JWT_SECRET <;>
          simp [authenticateToken, jwtVerify, hsec, he]
    simp [logoutHandler, hfail]
  · intro hs he
    have hauth : authenticateToken (some t) now = .ok t := by
      simp [authenticateToken, jwtVerify, hs, Nat.not_le.mpr he]
    cases hcase : alookup st.activeSessions t.id with
    | none => simp [logoutHandler, hauth, hcase]
    | some l => simp [logoutHandler, hauth, hcase]

/-- Witness for claim C7: the expired pre-bump token of `U7` presented at
its exact expiry instant is answered 403 with `st6` unchanged, and the
same token while still fresh is answered 200 with exactly it erased. -/
theorem claim7_witness :
    (logoutHandler st6 (some oldTok7) 86400000).1 =
      (403, "Invalid or expired token") ∧
    (logoutHandler st6 (some oldTok7) 86400000).2 = st6 ∧
    (logoutHandler st6 (some oldTok7) 1000).1 =
      (200, "Logged out successfully") ∧
    (logoutHandler st6 (some oldTok7) 1000).2.activeSessions =
      aset st6.activeSessions 7 ([oldTok7, freshTok7].erase oldTok7) := by
  obtain ⟨-, herr, -⟩ := claim7_logout_statuses st6 oldTok7 86400000
  obtain ⟨h1, h2⟩ := herr (Or.inr (by decide))
  obtain ⟨-, -, hok⟩ := claim7_logout_statuses st6 oldTok7 1000
  obtain ⟨h3, h4⟩ := hok rfl (by decide)
  exact ⟨h1, h2, h3, by rw [h4]; rfl⟩

/-! ## C8 — the client idle tracker -/

/-- Claim C8 (confirmed): after activity at instant `a`, `resetTimeout`
schedules the warning at `a + (sessionTimeout − warningLead)` and the
logout at `a + sessionTimeout` with the warning hidden; with no further
activity the warning callback firing at its scheduled instant activates
the warning state (without logging out); the logout callback firing
`warningLead` later performs the local logout and dismisses the warning;
and a qualifying activity event at any instant `b` runs `resetTimeout`,
which replaces — cancels — both pending timers and restarts the full
cycle from `b`. -/
theorem claim8_idle_tracker (s : IdleState) (a b : Nat) :
    (resetTimeout a s).warningTimer =
      some (a + (SESSION_TIMEOUT - WARNING_BEFORE_TIMEOUT)) ∧
    (resetTimeout a s).logoutTimer = some (a + SESSION_TIMEOUT) ∧
    (resetTimeout a s).showWarning = false ∧
    (fireWarning (a + (SESSION_TIMEOUT - WARNING_BEFORE_TIMEOUT))
      (resetTimeout a s)).showWarning = true ∧
    (fireWarning (a + (SESSION_TIMEOUT - WARNING_BEFORE_TIMEOUT))
      (resetTimeout a s)).loggedOut = s.loggedOut ∧
    (fireLogout (fireWarning (a + (SESSION_TIMEOUT - WARNING_BEFORE_TIMEOUT))
      (resetTimeout a s))).loggedOut = true ∧
    (fireLogout (fireWarning (a + (SESSION_TIMEOUT - WARNING_BEFORE_TIMEOUT))
      (resetTimeout a s))).showWarning = false ∧
    handleActivity true b s = resetTimeout b s ∧
    (resetTimeout b s).warningTimer =
      some (b + (SESSION_TIMEOUT - WARNING_BEFORE_TIMEOUT)) ∧
    (resetTimeout b s).logoutTimer = some (b + SESSION_TIMEOUT) ∧
    (resetTimeout b s).showWarning = false := by
  have hguard : ¬ (a + (SESSION_TIMEOUT - WARNING_BEFORE_TIMEOUT) -
      (resetTimeout a s).lastActivity <
        SESSION_TIMEOUT - WARNING_BEFORE_TIMEOUT) := by
    simp [resetTimeout]
  refine ⟨rfl, rfl, rfl, ?_, ?_, ?_, ?_, rfl, rfl, rfl, rfl⟩ <;>
    simp [fireWarning, fireLogout, hguard, resetTimeout]

/-! ## C9 — authorization is read from the token's role claim -/

/-- Claim C9 (confirmed): the authorization status of the admin-gated
`GET /api/users` route is computed from the presented token alone — it is
the same for any two database states, in particular before and after a
`PUT /api/users/:id/role` update — and for a verifiable token it is
exactly 200 when the token's embedded role claim is `admin` and 403
otherwise, until the token expires. -/
theorem claim9_role_from_token (db : List User) (t : Token)
    (tid : Nat) (r : String) (now now' : Nat) (b : Option Token) :
    (∀ db₁ db₂ : List User,
      usersListStatus db₁ (some t) now' =
        usersListStatus db₂ (some t) now') ∧
    usersListStatus (updateRoleHandler db b tid r now).2 (some t) now' =
      usersListStatus db (some t) now' ∧
    (t.secret = JWT_SECRET → now' < t.exp →
      usersListStatus db (some t) now' =
        if t.role = "admin" then 200 else 403) := by
  refine ⟨fun _ _ => rfl, rfl, ?_⟩
  intro hs he
  have hauth : authenticateToken (some t) now' = .ok t := by
    simp [authenticateToken, jwtVerify, hs, Nat.not_le.mpr he]
  simp only [usersListStatus, hauth]
  by_cases hr : t.role = "admin" <;> simp [hr]

/-- An unexpired admin token. -/
def tokAdmin : Token :=
  { id := 1, email := "a@x.com", name := "A", role := "admin"
    sessionVersion := 1, jti := 11, exp := 10, secret := JWT_SECRET }

/-- Witness for claim C9: an admin token is admitted to `GET /api/users`
and `U7`'s applicant token is refused with 403, regardless of the
database contents. -/
theorem claim9_witness :
    usersListStatus db7 (some tokAdmin) 5 = 200 ∧
    usersListStatus db7 (some oldTok7) 1000 = 403 := by
  obtain ⟨-, -, h1⟩ :=
    claim9_role_from_token db7 tokAdmin 1 "officer" 0 5 none
  obtain ⟨-, -, h2⟩ :=
    claim9_role_from_token db7 oldTok7 1 "officer" 0 1000 none
  exact ⟨by rw [h1 rfl (by decide)]; rfl, by rw [h2 rfl (by decide)]; rfl⟩

/-! ## C10 — registration does not enforce the session bound -/

/-- Six distinct tokens of `U7`, issued at instants 0–5. -/
def toks6 : List Token :=
  [generateToken [] U7 0 1, generateToken [] U7 1 2,
   generateToken [] U7 2 3, generateToken [] U7 3 4,
   generateToken [] U7 4 5, generateToken [] U7 5 6]

/-- A state whose live set for principal 7 already exceeds the maximum
(as a registration overshoot leaves it). -/
def stOver : AuthState :=
  { activeSessions := [(7, toks6)], sessionTokenVersions := []
    loginAttempts := [] }

/-- A state whose live set for principal 7 is exactly at the maximum. -/
def stOver5 : AuthState :=
  { activeSessions := [(7, toks6.take 5)], sessionTokenVersions := []
    loginAttempts := [] }

/-- Claim C10, counterexample: from a six-token overshoot state, a later
successful login runs its eviction yet leaves the set at six tokens —
still above the maximum — so a login's eviction does not re-establish the
bound; the periodic sweep does, trimming the same state to five. -/
theorem claim10_counterexample :
    (loginHandler cmpEq db7 stOver "p@x.com" "pw123456" 10 7).1.status
        = 200 ∧
    ((alookup (loginHandler cmpEq db7 stOver "p@x.com" "pw123456" 10 7
      ).2.activeSessions 7).getD []).length = 6 ∧
    ¬ (6 : Nat) ≤ MAX_CONCURRENT_SESSIONS ∧
    ((alookup (sweepSessions stOver.activeSessions) 7).getD []).length
        = 5 := by
  refine ⟨by decide, by decide, by decide, by decide⟩

/-- Claim C10 (amended): a successful registration appends the fresh token
to the principal's live set with no eviction and no size check, so the
per-principal set can exceed the configured maximum immediately after
registration; the bound is re-established only by the periodic 60-second
sweep, which trims every entry to at most the maximum — a later login
evicts exactly one oldest entry but also adds the new token, so it leaves
the length of an already-exceeded set unchanged. -/
theorem claim10_register_no_eviction :
    (∀ (hash : String → String) (db : List User) (st : AuthState)
        (email password name role : String) (newId now jti : Nat),
      (registerHandler hash db st email password name role newId now jti
        ).1.status = 201 →
      alookup (registerHandler hash db st email password name role newId
          now jti).2.2.activeSessions newId =
        some (setAdd ((alookup st.activeSessions newId).getD [])
          (generateToken (aset st.sessionTokenVersions newId 1)
            { id := newId, email := email
              password_hash := hash password, name := name, role := role }
            now jti))) ∧
    (∀ sessions : List (Nat × List Token), ∀ p ∈ sweepSessions sessions,
      p.2.length ≤ MAX_CONCURRENT_SESSIONS) ∧
    (∀ (l : List Token) (t : Token), t ∉ l →
      MAX_CONCURRENT_SESSIONS ≤ l.length →
      (trackSession l t).length = l.length) := by
  refine ⟨?_, ?_, ?_⟩
  · intro hash db st email password name role newId now jti h201
    simp only [registerHandler] at h201 ⊢
    split_ifs at h201 ⊢ with h1 h2 h3 h4 <;>
      first
        | exact alookup_aset_self st.activeSessions newId _
        | simp at h201
  · intro sessions p hp
    simp only [sweepSessions, List.mem_map] at hp
    obtain ⟨q, -, rfl⟩ := hp
    by_cases h : MAX_CONCURRENT_SESSIONS < q.2.length
    · simp only [h, if_true, List.length_drop]
      omega
    · simp only [h, if_false]
      omega
  · intro l t hnot hlen
    cases l with
    | nil => simp [MAX_CONCURRENT_SESSIONS] at hlen
    | cons a rest =>
      simp only [trackSession, setAdd, if_neg hnot]
      rw [if_pos (by simp at hlen ⊢; omega)]
      simp [List.cons_append, List.erase_cons_head]

/-- Witness for claim C10: registering a user whose fresh id collides
with principal 7 — who already holds five live tokens in `stOver5` —
appends a sixth token with no eviction; the sweep keeps the trimmed entry
within the bound; and tracking a seventh token through a login on the
six-token set keeps its length at six. -/
theorem claim10_witness :
    alookup (registerHandler (fun p => p) [] stOver5 "n@x.com" "pw123456"
        "N" "applicant" 7 10 9).2.2.activeSessions 7 =
      some (setAdd ((alookup stOver5.activeSessions 7).getD [])
        (generateToken (aset stOver5.sessionTokenVersions 7 1)
          { id := 7, email := "n@x.com", password_hash := "pw123456"
            name := "N", role := "applicant" } 10 9)) ∧
    ((7, toks6.drop 1) : Nat × List Token).2.length ≤
      MAX_CONCURRENT_SESSIONS ∧
    (trackSession toks6 (generateToken [] U7 6 7)).length = toks6.length :=
  ⟨claim10_register_no_eviction.1 (fun p => p) [] stOver5 "n@x.com"
      "pw123456" "N" "applicant" 7 10 9 (by decide),
   claim10_register_no_eviction.2.1 stOver.activeSessions
      (7, toks6.drop 1) (by decide),
   claim10_register_no_eviction.2.2 toks6 (generateToken [] U7 6 7)
      (by decide) (by decide)⟩

end CollegeAdmissions
